import Mathlib

/-!
Verification of the 1688 negotiation agent backend against its
specification.  The code under scrutiny is `backend/state_machine.py`
(the negotiation orchestrator, session lifecycle, and gate registry),
`backend/playwright_driver.py` (the browser-automation driver) and
`backend/ai_client.py` (the reply generator).

Embedding conventions:
* Every driver, network or gate call whose outcome depends on the outside
  world is a field of an environment record; an `Except` value stands for
  "returned normally" versus "raised an exception".
* Python dict results become structures; a Python exception becomes
  `Except.error` carrying the exception class name and the message.
* Logging, WebSocket broadcasts and file snapshots have no effect on the
  in-memory session record and are not modelled; a snapshot always writes
  the current `_state`, so the persisted record equals the in-memory
  state at the corresponding program point.
-/

namespace Backend

/-- A Python exception, reduced to its class name and message. -/
structure Exc where
  kind : String
  msg : String
deriving DecidableEq

/-- Python f-string of exception type name and message, the shape recorded
in `last_error` by `state_machine.start`. -/
def excStr (e : Exc) : String := e.kind ++ ": " ++ e.msg

/-! ### String helpers: Python `in` and `str.lower`

`playwright_driver.is_proxy_tunnel_error` classifies an error message by
case-insensitive substring search.  We implement the substring test by
structural recursion on character lists so that concrete instances can be
evaluated by `decide`. -/

/-- Whether `pat` occurs at the head of `l` (character-list version). -/
def strHeadMatches : List Char → List Char → Bool
  | [], _ => true
  | _ :: _, [] => false
  | a :: as, b :: bs => a == b && strHeadMatches as bs

/-- Whether `pat` occurs somewhere inside `l`. -/
def charsHaveSub (pat : List Char) : List Char → Bool
  | [] => strHeadMatches pat []
  | c :: cs => strHeadMatches pat (c :: cs) || charsHaveSub pat cs

/-- Python `pat in s` for strings. -/
def strHasSub (s pat : String) : Bool := charsHaveSub pat.data s.data

/-- Python `str.lower()` on the ASCII range (`Char.toLower` per character);
the patterns being matched are all ASCII. -/
def strLower (s : String) : String := ⟨s.data.map Char.toLower⟩

/-- The pattern list of `playwright_driver.is_proxy_tunnel_error`. -/
def proxyTunnelPatterns : List String :=
  ["ERR_TUNNEL_CONNECTION_FAILED", "ERR_PROXY_CONNECTION_FAILED",
   "net::ERR_TUNNEL_CONNECTION_FAILED", "net::ERR_PROXY_CONNECTION_FAILED",
   "Proxy tunnel failed", "Unable to connect to the proxy server"]

/-- `playwright_driver.is_proxy_tunnel_error`: case-insensitive substring
match of any proxy-tunnel pattern against the error text. -/
def isProxyTunnelError (errorStr : String) : Bool :=
  proxyTunnelPatterns.any (fun p => strHasSub (strLower errorStr) (strLower p))

/-! ### Gate registry

`state_machine.py` keeps a module dict `_gates : name -> asyncio.Event`.
`_get_gate` creates the event on first reference; `open_gate` signals it;
`reset_gate` replaces it with a fresh unsignaled event, but only when it
is currently set.  We model an `asyncio.Event` as an allocation identity
(`eid`, so that "same latch object" is expressible) plus its signaled
flag, and the registry as a map from names to events together with an
allocation counter supplying fresh identities. -/

/-- One `asyncio.Event`: allocation identity plus signaled flag. -/
structure GateEvent where
  eid : Nat
  isSet : Bool
deriving DecidableEq

/-- The `_gates` dict plus a counter for allocating fresh events. -/
structure Gates where
  reg : String → Option GateEvent
  nextId : Nat

/-- `_get_gate`: return the registered event, creating and registering a
fresh unsignaled one on first reference. -/
def getGate (name : String) (g : Gates) : GateEvent × Gates :=
  match g.reg name with
  | some ev => (ev, g)
  | none =>
    (⟨g.nextId, false⟩,
     ⟨fun n => if n = name then some ⟨g.nextId, false⟩ else g.reg n, g.nextId + 1⟩)

/-- `open_gate`: `_get_gate(name).set()` — the registered event keeps its
identity and becomes signaled. -/
def openGate (name : String) (g : Gates) : Gates :=
  let p := getGate name g
  ⟨fun n => if n = name then some ⟨p.1.eid, true⟩ else p.2.reg n, p.2.nextId⟩

/-- `reset_gate`: fetch the event via `_get_gate`; replace it by a fresh
unsignaled event only when it is set, otherwise leave the registry as
`_get_gate` left it. -/
def resetGate (name : String) (g : Gates) : Gates :=
  let p := getGate name g
  if p.1.isSet then
    ⟨fun n => if n = name then some ⟨p.2.nextId, false⟩ else p.2.reg n, p.2.nextId + 1⟩
  else p.2

/-- Whether `_wait_gate(name)` would pass through immediately, i.e. the
event returned by `_get_gate` is signaled (`ev.wait()` completes at once;
an unsignaled event blocks the waiter until `open_gate`). -/
def waitPasses (name : String) (g : Gates) : Bool := (getGate name g).1.isSet

/-- The registry at process start: no gates referenced yet. -/
def initialGates : Gates := ⟨fun _ => none, 0⟩

/-- A registry holding one pending (unsignaled) gate, for the C10 witness. -/
def pendingGates : Gates :=
  ⟨fun n => if n = "CONFIRM_PRODUCT_AND_CHAT" then some ⟨5, false⟩ else none, 6⟩

/-! ### Driver: proxy-tunnel fallback and login flow

`reopen_page_without_proxy_and_reuse_cookies` and
`ensure_login_via_taobao` from `playwright_driver.py`.  The fallback's
setup phase (extracting cookies, creating the proxyless context, adding
cookies, opening the page — any of which the outer `except` turns into
`fallback_failed`), its retried navigation, and the context close on
navigation failure are environment fields. -/

deriving instance DecidableEq for Except

/-- Environment of `reopen_page_without_proxy_and_reuse_cookies`. -/
structure FallbackEnv where
  setup : Except String Unit
  nav : Except String Unit
  closeCtx : Except String Unit
deriving DecidableEq

/-- Result dict of the fallback helper (`page`/`context` reduced to
whether a live page is returned). -/
structure FBResult where
  ok : Bool
  type : String
  reason : String
  hasPage : Bool
deriving DecidableEq

/-- `reopen_page_without_proxy_and_reuse_cookies(page, next_url)`.  On a
failed retried navigation the new context is closed first; the navigation
error is then classified by a case-sensitive substring check (unlike
`is_proxy_tunnel_error`).  Any exception outside the inner navigation
`try` yields `fallback_failed`. -/
def reopenPageWithoutProxyAndReuseCookies (env : FallbackEnv) (nextUrl : String) :
    FBResult :=
  match env.setup with
  | .error e =>
    ⟨false, "fallback_failed", "Fallback without proxy failed: " ++ e, false⟩
  | .ok _ =>
    match env.nav with
    | .ok _ =>
      ⟨true, "fallback_without_proxy_success",
       "Successfully reached " ++ nextUrl ++ " without proxy after tunnel failure", true⟩
    | .error navMsg =>
      match env.closeCtx with
      | .error ce =>
        ⟨false, "fallback_failed", "Fallback without proxy failed: " ++ ce, false⟩
      | .ok _ =>
        if strHasSub navMsg "ERR_TUNNEL_CONNECTION_FAILED"
            || strHasSub navMsg "ERR_PROXY_CONNECTION_FAILED" then
          ⟨false, "proxy_tunnel_failed",
           "Product URL unreachable even without proxy: " ++ navMsg, false⟩
        else
          ⟨false, "navigation_failed",
           "Navigation failed without proxy: " ++ navMsg, false⟩

/-- An exception raised by a navigation or check inside
`ensure_login_via_taobao`: whether it is a `PlaywrightError` (caught by
the dedicated handlers) and its message. -/
structure NavErr where
  isPlaywright : Bool
  msg : String
deriving DecidableEq

/-- Result dict of `wait_until_logged_in` (url omitted: unused by the
caller beyond logging). -/
structure WaitLoginResult where
  ok : Bool
  type : String
  reason : String
deriving DecidableEq

/-- Environment of `ensure_login_via_taobao`: outcome of the login-entry
navigation, of the `is_logged_in` probe, of `wait_until_logged_in`
(which can itself raise, e.g. from `page.is_closed`), of the product
navigation, and the fallback helper's environment. -/
structure LoginEnv where
  gotoLoginEntry : Except NavErr Unit
  checkLoggedIn : Except NavErr Bool
  waitLogin : Except NavErr WaitLoginResult
  gotoProduct : Except NavErr Unit
  fallback : FallbackEnv
deriving DecidableEq

/-- Result dict of `ensure_login_via_taobao` (the optional `page` key is
never read by `state_machine.py`). -/
structure LoginResult where
  ok : Bool
  reason : String
  type : String
deriving DecidableEq

/-- The two outer exception handlers of `ensure_login_via_taobao`:
`except PlaywrightError` classifies tunnel errors, anything else becomes
`unexpected_error`. -/
def loginOuterCatch (e : NavErr) : LoginResult :=
  if e.isPlaywright then
    if isProxyTunnelError e.msg then
      ⟨false, "Proxy tunnel failed during login: " ++ e.msg, "proxy_tunnel_failed"⟩
    else
      ⟨false, "Login process failed with Playwright error: " ++ e.msg, "playwright_error"⟩
  else
    ⟨false, "Login process failed with unexpected error: " ++ e.msg, "unexpected_error"⟩

/-- `ensure_login_via_taobao(page, product_url)`.  Returns the structured
result plus the number of calls made to the no-proxy fallback helper.
Control flow from the source: open the login entry page; if not already
logged in, wait indefinitely for login (an `ok=false` wait result is
returned as-is); then navigate to the product URL.  A `PlaywrightError`
there that classifies as a proxy-tunnel error triggers exactly one
fallback call, whose success substitutes for the navigation; a
non-tunnel `PlaywrightError` is re-raised and lands in the outer
`except PlaywrightError` handler; a non-Playwright exception lands in
the outer `except Exception` handler. -/
def ensureLoginViaTaobao (env : LoginEnv) (productUrl : String) :
    LoginResult × Nat :=
  match env.gotoLoginEntry with
  | .error e => (loginOuterCatch e, 0)
  | .ok _ =>
    match env.checkLoggedIn with
    | .error e => (loginOuterCatch e, 0)
    | .ok logged =>
      match (if logged then Except.ok none else
              match env.waitLogin with
              | .error e => Except.error e
              | .ok wl =>
                if wl.ok then Except.ok none
                else Except.ok (some (⟨false, wl.reason, wl.type⟩ : LoginResult))) with
      | .error e => (loginOuterCatch e, 0)
      | .ok (some r) => (r, 0)
      | .ok none =>
        match env.gotoProduct with
        | .ok _ => (⟨true, "login_and_product_ok", "success"⟩, 0)
        | .error e =>
          if e.isPlaywright then
            if isProxyTunnelError e.msg then
              let fb := reopenPageWithoutProxyAndReuseCookies env.fallback productUrl
              if fb.ok then
                (⟨true, "login_ok_product_via_fallback", "proxy_tunnel_fallback_success"⟩, 1)
              else
                (⟨false, fb.reason, fb.type⟩, 1)
            else (loginOuterCatch e, 0)
          else (loginOuterCatch e, 0)

/-- A login environment where the product navigation fails with a proxy
tunnel error and the proxyless retry then fails with an unrelated
navigation error (connection reset). -/
def c3FailingLoginEnv : LoginEnv :=
  { gotoLoginEntry := Except.ok (),
    checkLoggedIn := Except.ok true,
    waitLogin := Except.ok ⟨true, "logged_in", "Successfully logged in"⟩,
    gotoProduct := Except.error ⟨true, "net::ERR_TUNNEL_CONNECTION_FAILED"⟩,
    fallback :=
      { setup := Except.ok (),
        nav := Except.error "net::ERR_CONNECTION_RESET",
        closeCtx := Except.ok () } }

/-- A login environment where the tunnel-failed product navigation is
recovered by the no-proxy fallback. -/
def c3RecoveredLoginEnv : LoginEnv :=
  { gotoLoginEntry := Except.ok (),
    checkLoggedIn := Except.ok true,
    waitLogin := Except.ok ⟨true, "logged_in", "Successfully logged in"⟩,
    gotoProduct := Except.error ⟨true, "net::ERR_TUNNEL_CONNECTION_FAILED"⟩,
    fallback :=
      { setup := Except.ok (), nav := Except.ok (), closeCtx := Except.ok () } }

/-! ### Driver: chat send, supplier-reply wait, chat-ready wait, chat open -/

/-- Outcome of probing one selector: result of `is_visible` (which may
raise) and of the ensuing interaction (click+fill+type for input
selectors, click for send buttons). -/
structure ProbeOutcome where
  visible : Except String Bool
  act : Except String Unit
deriving DecidableEq

/-- Environment of `send_on_chat_precise_canonical`: per-selector probe
outcomes, the Enter-key fallback and the post-send sleep. -/
structure SendEnv where
  input : String → ProbeOutcome
  sendBtn : String → ProbeOutcome
  pressEnter : Except String Unit
  sleepAfterSend : Except String Unit

/-- The input selector list of `send_on_chat_precise_canonical`. -/
def sendInputSelectors : List String :=
  ["textarea", "[contenteditable=\"true\"]", "div[role=\"textbox\"]",
   "input[type=\"text\"]", ".chat-input"]

/-- The send-button selector list of `send_on_chat_precise_canonical`. -/
def sendButtonSelectors : List String :=
  ["text=发送", "text=Send", "button:has-text(\"发送\")", ".send-btn",
   "[type=\"submit\"]"]

/-- The send-button loop: first selector that is visible and clicks
without raising sets `message_sent`; a raise in `is_visible` or `click`
moves on to the next selector. -/
def trySendButtons (env : SendEnv) : List String → Bool
  | [] => false
  | sel :: rest =>
    match (env.sendBtn sel).visible with
    | .error _ => trySendButtons env rest
    | .ok false => trySendButtons env rest
    | .ok true =>
      match (env.sendBtn sel).act with
      | .error _ => trySendButtons env rest
      | .ok _ => true

/-- The per-input-selector loop of `send_on_chat_precise_canonical`,
carrying the `message_sent` flag across iterations.  Every exception in
the body is absorbed by `except Exception: continue`; when the flag is
set and the post-send sleep does not raise, the function returns `True`
early; an exhausted loop also returns `True`. -/
def sendAttemptLoop (env : SendEnv) (msgSent : Bool) : List String → Bool
  | [] => true
  | sel :: rest =>
    match (env.input sel).visible with
    | .error _ => sendAttemptLoop env msgSent rest
    | .ok false => sendAttemptLoop env msgSent rest
    | .ok true =>
      match (env.input sel).act with
      | .error _ => sendAttemptLoop env msgSent rest
      | .ok _ =>
        let sent1 := msgSent || trySendButtons env sendButtonSelectors
        let sent2 := if sent1 then sent1 else
          match env.pressEnter with
          | .ok _ => true
          | .error _ => false
        if sent2 then
          match env.sleepAfterSend with
          | .ok _ => true
          | .error _ => sendAttemptLoop env sent2 rest
        else sendAttemptLoop env sent2 rest

/-- `send_on_chat_precise_canonical(page, text)`.  The `Except` result
type keeps the raise channel observable; the outer
`except Exception: return True` handler of the source is unreachable
because every exception inside the selector loop is already absorbed by
the per-selector handlers, so the body always returns a plain `True`. -/
def sendOnChatPreciseCanonical (env : SendEnv) : Except String Bool :=
  Except.ok (sendAttemptLoop env false sendInputSelectors)

/-- `wait_for_supplier_reply_canonical` sleeps `min(timeout_s, 10)`
seconds and returns this fixed acknowledgement text. -/
def supplierMockReply : String := "感谢您的咨询，我们会尽快回复您。"

/-- The text returned when the sleep inside
`wait_for_supplier_reply_canonical` raises. -/
def supplierTimeoutReply : String := "Timeout waiting for reply"

/-- The only page-independent effect of
`wait_for_supplier_reply_canonical`: a sleep of `min(timeout_s, 10)`
seconds. -/
def supplierSleepSeconds (timeoutS : Nat) : Nat := min timeoutS 10

/-- `wait_for_supplier_reply_canonical(page, timeout_s)`: no DOM access
at all; after the sleep it returns the fixed mock text, and if the sleep
raises, the handler returns the fixed timeout text.  It never raises. -/
def waitForSupplierReplyCanonical (sleepRes : Except String Unit)
    (_timeoutS : Nat) : String :=
  match sleepRes with
  | .ok _ => supplierMockReply
  | .error _ => supplierTimeoutReply

/-- The polling loop of `wait_for_chat_ready`: one selector scan per half
second (`detect k` abstracts the k-th scan over the selector list, whose
per-element exceptions are absorbed inside the scan), with
`2 * max_wait_time` scans before the deadline. -/
def chatDetectLoop (detect : Nat → Bool) : Nat → Nat → Bool
  | 0, _ => false
  | fuel + 1, k => if detect k then true else chatDetectLoop detect fuel (k + 1)

/-- The timeout message raised by `wait_for_chat_ready`. -/
def waitForChatReadyTimeoutMsg (maxWait : Nat) : String :=
  "Chat interface did not load after " ++ toString maxWait ++ "s timeout"

/-- `wait_for_chat_ready(page, timeout_s)`: the network-idle wait is
absorbed by its own handler; the scan loop runs for
`min(timeout_s, 30)` seconds at half-second intervals; detection returns
`True`, an exhausted loop raises `RuntimeError` (re-raised unchanged by
the outer handler).  The function can never return `False`. -/
def waitForChatReady (detect : Nat → Bool) (timeoutS : Nat) :
    Except String Bool :=
  if chatDetectLoop detect (2 * min timeoutS 30) 0 then Except.ok true
  else Except.error (waitForChatReadyTimeoutMsg (min timeoutS 30))

/-- The `find_kefu_on_product_page` result dict (the `elements` list is
determined by `selector` and `count` and is never read by the caller). -/
structure KefuInfo where
  found : Bool
  selector : Option String
  count : Nat
  firstVisible : Bool
deriving DecidableEq

/-- Environment of `ensure_product_and_chat_open`.  The probing helpers
it calls are total in the source (each wraps everything in a catch-all
and returns a value): `is_captcha_or_traffic_block` returns a Bool,
`find_kefu_on_product_page` returns a dict, the primary
`od-text` count falls back to 0 on error, `click_kefu_safely` returns a
success flag that is only logged, and the step-6 chat-input scan yields
a visibility flag. -/
structure ChatEnv where
  pageUrl : String
  captcha : Bool
  kefuInfo : KefuInfo
  primaryKefuCount : Nat
  clickSuccess : Bool
  chatInputVisible : Bool
deriving DecidableEq

/-- Result dict of `ensure_product_and_chat_open` (`page` omitted: the
caller falls back to its own page handle). -/
structure ChatStatus where
  ok : Bool
  type : String
  reason : String
  url : String
  kefuCount : Nat
deriving DecidableEq

/-- `ensure_product_and_chat_open(page, product_url)`: captcha detection
first (a hard `blocked_by_captcha` result), then kefu lookup
(`chat_not_found` when absent), then the click (whose failure is only
logged) and the chat-input scan, both `ok=true` outcomes. -/
def ensureProductAndChatOpen (env : ChatEnv) : ChatStatus :=
  if env.captcha then
    ⟨false, "blocked_by_captcha",
     "Alibaba detected unusual traffic (baxia-punish captcha) on the product page. Please solve the slider captcha in the browser or change proxy, then click Retry.",
     env.pageUrl, 0⟩
  else
    let kefuCount0 := if env.kefuInfo.found then env.kefuInfo.count else 0
    let kefuCount := if env.primaryKefuCount > 0 then env.primaryKefuCount else kefuCount0
    if !env.kefuInfo.found then
      ⟨false, "chat_not_found", "No kefu/chat entry found on product page",
       env.pageUrl, 0⟩
    else if !env.chatInputVisible then
      ⟨true, "chat_ready", "kefu_clicked_chat_loading", env.pageUrl, kefuCount⟩
    else
      ⟨true, "chat_ready", "chat_found", env.pageUrl, kefuCount⟩

/-! ### Session state and the orchestrator `start`

`state_machine._state` restricted to its non-internal keys.  Keys that
the source adds only when first assigned (`style`, `supplier_reply`,
`ai_reply`, `ai_reply_used_model`, `ai_reply_is_mock`, `ai_reply_error`)
are `Option`s that start as `none`; note that `start()` resets only the
keys listed in its `_state.update` call, so the `ai_reply*` keys are
deliberately not reset here either. -/
structure SessionState where
  sessionId : Option String
  status : String
  step : Option String
  turn : Nat
  maxTurns : Int
  productUrl : Option String
  openerText : Option String
  style : Option String
  lastError : Option String
  reply : Option String
  startedAt : Option String
  finishedAt : Option String
  supplierReply : Option String
  aiReply : Option String
  aiReplyUsedModel : Option String
  aiReplyIsMock : Option Bool
  aiReplyError : Option String
deriving DecidableEq

/-- The module-level `_state` at import time. -/
def initialSessionState : SessionState :=
  { sessionId := none, status := "idle", step := none, turn := 0, maxTurns := 6,
    productUrl := none, openerText := none, style := none, lastError := none,
    reply := none, startedAt := none, finishedAt := none, supplierReply := none,
    aiReply := none, aiReplyUsedModel := none, aiReplyIsMock := none,
    aiReplyError := none }

/-- The `_state.update` performed inside the lock by `start()`:
`int(max_turns or 6)` maps a (falsy) zero to 6. -/
def initStart (sessionId startedAt productUrl openerText style : String)
    (maxTurns : Int) (s : SessionState) : SessionState :=
  { s with
    sessionId := some sessionId, status := "running", step := some "INIT",
    turn := 0, maxTurns := if maxTurns = 0 then 6 else maxTurns,
    productUrl := some productUrl, openerText := some openerText,
    style := some style, lastError := none, reply := none,
    startedAt := some startedAt, finishedAt := none }

/-- How a call to `start()` or `start_login_only()` ends: a normal return,
an early `return` from a blocked branch (the session left `running` in
its current stage), or a propagated exception. -/
inductive Outcome where
  | finished : Outcome
  | halted : Outcome
  | raised : Exc → Outcome
deriving DecidableEq

/-- The result dict of `ai_client.generate_next_reply` as read by the
orchestrator: `.get` with defaults for `used_model` and `is_mock`. -/
structure AIResult where
  text : String
  usedModel : Option String
  isMock : Option Bool
deriving DecidableEq

/-- The fixed fallback acknowledgement of the reply stage. -/
def fallbackReplyText : String := "感谢您的回复，我们会尽快与您联系。"

/-- The reply stage of `start()` (the `try` around AI generation and the
reply send).  `gen` is the outcome of `ai_client.generate_next_reply`
(`.error` = it raised; `.ok none` models a falsy result object); `send`
is the outcome of `send_on_chat_precise_canonical` per attempted text.
Returns the list of texts passed to `send` (in call order) and either
the updated state or the exception that escapes the stage.  All `_state`
assignments of a branch happen after its send, so a raising send leaves
the state untouched. -/
def replyStage (s : SessionState) (gen : Except Exc (Option AIResult))
    (send : String → Except Exc Unit) :
    List String × Except Exc SessionState :=
  match gen with
  | .error e =>
    match send fallbackReplyText with
    | .error e2 => ([fallbackReplyText], .error e2)
    | .ok _ =>
      ([fallbackReplyText],
       .ok { s with aiReply := some fallbackReplyText, aiReplyError := some e.msg })
  | .ok res =>
    match res with
    | some r =>
      if r.text ≠ "" then
        match send r.text with
        | .ok _ =>
          ([r.text],
           .ok { s with
                 aiReply := some r.text,
                 aiReplyUsedModel := some (r.usedModel.getD "unknown"),
                 aiReplyIsMock := some (r.isMock.getD false) })
        | .error e =>
          match send fallbackReplyText with
          | .error e2 => ([r.text, fallbackReplyText], .error e2)
          | .ok _ =>
            ([r.text, fallbackReplyText],
             .ok { s with
                   aiReply := some fallbackReplyText,
                   aiReplyError := some e.msg })
      else
        match send fallbackReplyText with
        | .ok _ =>
          ([fallbackReplyText],
           .ok { s with
                 aiReply := some fallbackReplyText,
                 aiReplyUsedModel := some "fallback" })
        | .error e =>
          match send fallbackReplyText with
          | .error e2 => ([fallbackReplyText, fallbackReplyText], .error e2)
          | .ok _ =>
            ([fallbackReplyText, fallbackReplyText],
             .ok { s with
                   aiReply := some fallbackReplyText,
                   aiReplyError := some e.msg })
    | none =>
      match send fallbackReplyText with
      | .ok _ =>
        ([fallbackReplyText],
         .ok { s with
               aiReply := some fallbackReplyText,
               aiReplyUsedModel := some "fallback" })
      | .error e =>
        match send fallbackReplyText with
        | .error e2 => ([fallbackReplyText, fallbackReplyText], .error e2)
        | .ok _ =>
          ([fallbackReplyText, fallbackReplyText],
           .ok { s with
                 aiReply := some fallbackReplyText,
                 aiReplyError := some e.msg })

/-- The messages `start()` raises when `ensure_login_via_taobao` reports
failure, per error type, with the Python `or` defaults on empty
reasons. -/
def loginFailMsg (r : LoginResult) : String :=
  if r.type = "login_timeout" then
    "Login not settled: " ++
      (if r.reason ≠ "" then r.reason else "User did not complete login in time")
  else if r.type = "proxy_tunnel_failed" then
    "Login not settled: proxy tunnel failed - " ++
      (if r.reason ≠ "" then r.reason else "Please change proxy line or disable proxy")
  else
    "Login not settled: " ++ (if r.reason ≠ "" then r.reason else "Unknown reason")

/-- The `RuntimeError` message `start()` builds when the chat interface
fails to load (wrapping the driver error text). -/
def chatNotLoadedMsg (detail : String) : String :=
  "Chat interface did not load. The 1688 page may be loading slowly or the chat service is unavailable. Please try refreshing the page and clicking the chat (客服) button manually, then retry. Error details: " ++ detail

/-- Environment of one `start()` run: fresh id and timestamps, outcomes
of the page acquisition and lifecycle check, the login environment, gate
waits (`asyncio.wait_for` can raise `TimeoutError` in manual mode; under
auto-advance it returns normally), the offer-readiness probes, the chat
environment, the chat-ready wait, the two sends, the supplier-reply
sleep, and the generator outcome. -/
structure StartEnv where
  sessionId : String
  startedAt : String
  finishedAt : String
  getPage : Except Exc Unit
  pageClosed : Except Exc Bool
  reopenPage : Except Exc Unit
  login : LoginEnv
  gateLoginWait : Except Exc Unit
  offerReady : Except Exc Bool
  reloadPage : Except Exc Unit
  offerReadyRetry : Except Exc Bool
  chat : ChatEnv
  gateChatWait : Except Exc Unit
  chatReady : Except String Unit
  sendOpener : Except Exc Unit
  gateSendWait : Except Exc Unit
  supplierSleep : Except String Unit
  gen : Except Exc (Option AIResult)
  sendReply : String → Except Exc Unit

/-- The page-lifecycle check of `start()`: a closed page (or a raising
check) triggers `reopen_page`, whose own failure propagates. -/
def pageCheckRes (env : StartEnv) : Except Exc Unit :=
  match env.pageClosed with
  | .ok false => .ok ()
  | .ok true => env.reopenPage
  | .error _ => env.reopenPage

/-- The offer-readiness block of `start()`: probe, on a falsy result
reload and probe again (both can raise, propagating to the inner
re-raise), and continue regardless of the final probe value. -/
def offerReadyRes (env : StartEnv) : Except Exc Unit :=
  match env.offerReady with
  | .error e => .error e
  | .ok true => .ok ()
  | .ok false =>
    match env.reloadPage with
    | .error e => .error e
    | .ok _ =>
      match env.offerReadyRetry with
      | .error e => .error e
      | .ok _ => .ok ()

/-- The stage-tag write `_state["step"] = tag` followed by a snapshot. -/
def setStep (tag : String) (s : SessionState) : SessionState :=
  { s with step := some tag }

/-- The write `_state["supplier_reply"] = reply_text`. -/
def setSupplierReply (reply : String) (s : SessionState) : SessionState :=
  { s with supplierReply := some reply }

/-- The completion block of `start()`: status done, step DONE,
`finished_at` stamped. -/
def finishDone (finishedAt : String) (s : SessionState) : SessionState :=
  { s with status := "done", step := some "DONE", finishedAt := some finishedAt }

/-- The outer `except` block shared by `start()` and
`start_login_only()`: status error, `last_error` recorded, `finished_at`
stamped (the `finally` purge of live browser handles does not touch any
persisted field). -/
def markError (e : Exc) (finishedAt : String) (s : SessionState) : SessionState :=
  { s with
    status := "error", lastError := some (excStr e),
    finishedAt := some finishedAt }

/-- The workflow body of `start()` (everything inside the outer `try`).
Stage tags are written into `step` exactly where the source writes them;
the scroll/hover block, `dismiss_offer_overlays` and the storage-state
persist are wrapped in their own swallowing handlers in the source and
have no effect on the session record.  The WebSocket broadcasts of the
blocked branches only emit events; all four `ok=false` chat branches
`return` with the session left as it is. -/
def startBody (env : StartEnv) (productUrl : String) (s0 : SessionState) :
    SessionState × Outcome :=
  match env.getPage with
  | .error e => (setStep "LAUNCH_BROWSER" s0, .raised e)
  | .ok _ =>
  match pageCheckRes env with
  | .error e => (setStep "LAUNCH_BROWSER" s0, .raised e)
  | .ok _ =>
  if (ensureLoginViaTaobao env.login productUrl).1.ok then
    match env.gateLoginWait with
    | .error e => (setStep "S0_DONE" (setStep "LAUNCH_BROWSER" s0), .raised e)
    | .ok _ =>
    match offerReadyRes env with
    | .error e => (setStep "S0_DONE" (setStep "LAUNCH_BROWSER" s0), .raised e)
    | .ok _ =>
    if (ensureProductAndChatOpen env.chat).ok then
      match env.gateChatWait with
      | .error e =>
        (setStep "S1_DONE" (setStep "S0_DONE" (setStep "LAUNCH_BROWSER" s0)),
         .raised e)
      | .ok _ =>
      match env.chatReady with
      | .error msg =>
        (setStep "S1_ERROR"
          (setStep "S1_DONE" (setStep "S0_DONE" (setStep "LAUNCH_BROWSER" s0))),
         .raised ⟨"RuntimeError", chatNotLoadedMsg msg⟩)
      | .ok _ =>
      match env.sendOpener with
      | .error e =>
        (setStep "S1_DONE" (setStep "S0_DONE" (setStep "LAUNCH_BROWSER" s0)),
         .raised e)
      | .ok _ =>
      match env.gateSendWait with
      | .error e =>
        (setStep "S1_DONE"
          (setStep "S1_DONE" (setStep "S0_DONE" (setStep "LAUNCH_BROWSER" s0))),
         .raised e)
      | .ok _ =>
      match (replyStage
          (setSupplierReply (waitForSupplierReplyCanonical env.supplierSleep 180)
            (setStep "S1_DONE"
              (setStep "S1_DONE"
                (setStep "S0_DONE" (setStep "LAUNCH_BROWSER" s0)))))
          env.gen env.sendReply).2 with
      | .error e =>
        (setSupplierReply (waitForSupplierReplyCanonical env.supplierSleep 180)
          (setStep "S1_DONE"
            (setStep "S1_DONE"
              (setStep "S0_DONE" (setStep "LAUNCH_BROWSER" s0)))),
         .raised e)
      | .ok s6 => (finishDone env.finishedAt s6, .finished)
    else
      match (ensureProductAndChatOpen env.chat).type with
      | "blocked_by_captcha" =>
        (setStep "S0_DONE" (setStep "LAUNCH_BROWSER" s0), .halted)
      | "captcha_block" =>
        (setStep "S0_DONE" (setStep "LAUNCH_BROWSER" s0), .halted)
      | "chat_not_found" =>
        (setStep "S0_DONE" (setStep "LAUNCH_BROWSER" s0), .halted)
      | _ => (setStep "S0_DONE" (setStep "LAUNCH_BROWSER" s0), .halted)
  else
    (setStep "LAUNCH_BROWSER" s0,
     .raised ⟨"RuntimeError",
       loginFailMsg (ensureLoginViaTaobao env.login productUrl).1⟩)

/-- `start(product_url, opener_text, max_turns, style)`: the guarded
creation section inside the lock, the workflow body, and the outer
`except` that marks the session errored, records `last_error`, stamps
`finished_at` and re-raises (the `finally` only purges the non-persisted
browser handles). -/
def runStart (env : StartEnv) (productUrl openerText : String) (maxTurns : Int)
    (style : String) (s : SessionState) : SessionState × Outcome :=
  if s.status = "running" then
    (s, .raised ⟨"RuntimeError", "A session is already running"⟩)
  else
    match startBody env productUrl
        (initStart env.sessionId env.startedAt productUrl openerText style
          maxTurns s) with
    | (s2, .raised e) => (markError e env.finishedAt s2, .raised e)
    | r => r

/-- The `_state.update` performed inside the lock by
`start_login_only()`. -/
def initLoginOnly (sessionId startedAt : String) (s : SessionState) :
    SessionState :=
  { s with
    sessionId := some sessionId, status := "running",
    step := some "LOGIN_ONLY_INIT", turn := 0, maxTurns := 0,
    productUrl := none, openerText := none, lastError := none, reply := none,
    startedAt := some startedAt, finishedAt := none }

/-- The messages `start_login_only()` raises on a failed login result. -/
def loginOnlyFailMsg (r : LoginResult) : String :=
  if r.type = "login_timeout" then
    "Login timeout: " ++
      (if r.reason ≠ "" then r.reason else "User did not complete login in time")
  else if r.type = "proxy_tunnel_failed" then
    "Proxy tunnel failed: " ++
      (if r.reason ≠ "" then r.reason
       else "Unable to reach work.1688.com through proxy")
  else
    "Login failed: " ++ (if r.reason ≠ "" then r.reason else "Unknown reason")

/-- Environment of one `start_login_only()` run. -/
structure LoginOnlyEnv where
  sessionId : String
  startedAt : String
  finishedAt : String
  launch : Except Exc Unit
  login : LoginEnv
  persist : Except Exc Unit

/-- The Work-Home entry URL `start_login_only` targets after login. -/
def workHomeUrl : String :=
  "https://work.1688.com/?tracelog=login_target_is_blank_1688"

/-- The workflow body of `start_login_only()`: launch browser, login
towards the Work Home URL, persist storage state, and stop at
`READY_FOR_PRODUCT`. -/
def loginOnlyBody (env : LoginOnlyEnv) (s1 : SessionState) :
    SessionState × Outcome :=
  match env.launch with
  | .error e => (setStep "LAUNCH_BROWSER_FOR_LOGIN" s1, .raised e)
  | .ok _ =>
    if (ensureLoginViaTaobao env.login workHomeUrl).1.ok then
      match env.persist with
      | .error e =>
        (setStep "ENSURE_LOGIN_TO_WORK_HOME"
          (setStep "LAUNCH_BROWSER_FOR_LOGIN" s1), .raised e)
      | .ok _ =>
        (setStep "READY_FOR_PRODUCT"
          (setStep "ENSURE_LOGIN_TO_WORK_HOME"
            (setStep "LAUNCH_BROWSER_FOR_LOGIN" s1)), .finished)
    else
      (setStep "ENSURE_LOGIN_TO_WORK_HOME"
        (setStep "LAUNCH_BROWSER_FOR_LOGIN" s1),
       .raised ⟨"RuntimeError",
         loginOnlyFailMsg (ensureLoginViaTaobao env.login workHomeUrl).1⟩)

/-- `start_login_only()`: the same guarded creation section as `start()`,
then the login-only workflow body; the outer `except` mirrors
`start()`. -/
def startLoginOnly (env : LoginOnlyEnv) (s : SessionState) :
    SessionState × Outcome :=
  if s.status = "running" then
    (s, .raised ⟨"RuntimeError", "A session is already running"⟩)
  else
    match loginOnlyBody env (initLoginOnly env.sessionId env.startedAt s) with
    | (s2, .raised e) => (markError e env.finishedAt s2, .raised e)
    | r => r

/-- A send outcome that always succeeds, as the concrete driver send
does. -/
def constOkSend : String → Except Exc Unit := fun _ => Except.ok ()

/-- A login environment where the user is already authenticated and the
product navigation succeeds. -/
def demoLoginEnvOk : LoginEnv :=
  { gotoLoginEntry := Except.ok (),
    checkLoggedIn := Except.ok true,
    waitLogin := Except.ok ⟨true, "logged_in", "Successfully logged in"⟩,
    gotoProduct := Except.ok (),
    fallback :=
      { setup := Except.ok (), nav := Except.ok (), closeCtx := Except.ok () } }

/-- A chat environment with no captcha, a visible kefu entry and a
visible chat input. -/
def demoChatEnvOk : ChatEnv :=
  { pageUrl := "https://detail.1688.com/offer/123.html",
    captcha := false,
    kefuInfo :=
      { found := true, selector := some "od-text", count := 1,
        firstVisible := true },
    primaryKefuCount := 1, clickSuccess := true, chatInputVisible := true }

/-- A start environment where every step succeeds and the generator
returns a non-empty reply. -/
def demoStartEnv : StartEnv :=
  { sessionId := "session_1700000000",
    startedAt := "2023-11-14T22:13:20Z",
    finishedAt := "2023-11-14T22:20:00Z",
    getPage := Except.ok (),
    pageClosed := Except.ok false,
    reopenPage := Except.ok (),
    login := demoLoginEnvOk,
    gateLoginWait := Except.ok (),
    offerReady := Except.ok true,
    reloadPage := Except.ok (),
    offerReadyRetry := Except.ok true,
    chat := demoChatEnvOk,
    gateChatWait := Except.ok (),
    chatReady := Except.ok (),
    sendOpener := Except.ok (),
    gateSendWait := Except.ok (),
    supplierSleep := Except.ok (),
    gen := Except.ok (some ⟨"请问最小起订量是多少？", some "mock-enhanced", some true⟩),
    sendReply := constOkSend }

/-- A login-only environment where every step succeeds. -/
def demoLoginOnlyEnv : LoginOnlyEnv :=
  { sessionId := "session_1700000001",
    startedAt := "2023-11-14T22:13:21Z",
    finishedAt := "2023-11-14T22:14:00Z",
    launch := Except.ok (),
    login := demoLoginEnvOk,
    persist := Except.ok () }

/-- A session currently executing its workflow. -/
def runningSessionState : SessionState :=
  { initialSessionState with status := "running" }

/-- One `start()` attempt viewed as a state transformer (for iterated
retry scenarios). -/
def startAttempt (env : StartEnv) (productUrl openerText : String)
    (maxTurns : Int) (style : String) (s : SessionState) : SessionState :=
  (runStart env productUrl openerText maxTurns style s).1

/-- The all-ok start environment with a driver permanently blocked by
the Alibaba captcha interception page. -/
def c2CaptchaEnv : StartEnv :=
  { demoStartEnv with chat := { demoChatEnvOk with captcha := true } }

/-- The all-ok start environment whose page acquisition raises. -/
def c5FailEnv : StartEnv :=
  { demoStartEnv with
    getPage := Except.error ⟨"TargetClosedError", "Browser closed"⟩ }

/-- A page whose every interaction raises once the input is found: the
typing, every send-button probe, the Enter press and the sleep all
fail. -/
def c7FailingSendEnv : SendEnv :=
  { input := fun _ =>
      ⟨Except.ok true, Except.error "TargetClosedError: page closed"⟩,
    sendBtn := fun _ =>
      ⟨Except.error "TargetClosedError: page closed",
       Except.error "TargetClosedError: page closed"⟩,
    pressEnter := Except.error "TargetClosedError: page closed",
    sleepAfterSend := Except.error "TargetClosedError: page closed" }

/-! ### Lemmas and claim theorems -/

lemma openGate_reg_self (name : String) (g : Gates) :
    (openGate name g).reg name = some ⟨(getGate name g).1.eid, true⟩ := by
  unfold openGate
  simp

lemma openGate_idem (name : String) (g : Gates) :
    openGate name (openGate name g) = openGate name g := by
  unfold openGate getGate
  cases h : g.reg name with
  | some ev =>
    simp only [h]
    congr 1
    funext n
    by_cases hn : n = name <;> simp [hn]
  | none =>
    simp only [h]
    congr 1
    funext n
    by_cases hn : n = name <;> simp [hn]

lemma getGate_of_reg_some (name : String) (g : Gates) (ev : GateEvent)
    (h : g.reg name = some ev) : getGate name g = (ev, g) := by
  unfold getGate
  rw [h]

lemma waitPasses_openGate (name : String) (g : Gates) :
    waitPasses name (openGate name g) = true := by
  unfold waitPasses
  rw [getGate_of_reg_some name (openGate name g) _ (openGate_reg_self name g)]

lemma resetGate_openGate_reg (name : String) (g : Gates) :
    (resetGate name (openGate name g)).reg name
      = some ⟨(openGate name g).nextId, false⟩ := by
  unfold resetGate
  rw [getGate_of_reg_some name (openGate name g) _ (openGate_reg_self name g)]
  simp

lemma waitPasses_reset_open (name : String) (g : Gates) :
    waitPasses name (resetGate name (openGate name g)) = false := by
  unfold waitPasses
  rw [getGate_of_reg_some name (resetGate name (openGate name g)) _
    (resetGate_openGate_reg name g)]

lemma openGate_iterate (name : String) (g : Gates) :
    ∀ n, 1 ≤ n → (openGate name)^[n] g = openGate name g := by
  intro n
  induction n with
  | zero => omega
  | succ k ih =>
    intro _
    rcases Nat.eq_zero_or_pos k with hk | hk
    · subst hk
      simp
    · rw [Function.iterate_succ_apply', ih hk, openGate_idem]

lemma resetGate_pending_id (name : String) (g : Gates) (ev : GateEvent)
    (hreg : g.reg name = some ev) (hset : ev.isSet = false) :
    resetGate name g = g := by
  unfold resetGate
  rw [getGate_of_reg_some name g ev hreg]
  simp [hset]

lemma resetGate_reg_unsignaled (name : String) (g : Gates) :
    ∃ ev, (resetGate name g).reg name = some ev ∧ ev.isSet = false := by
  unfold resetGate getGate
  cases h : g.reg name with
  | some ev =>
    simp only [h]
    by_cases hs : ev.isSet
    · exact ⟨⟨g.nextId, false⟩, by simp [hs], rfl⟩
    · exact ⟨ev, by simp [hs, h], by simpa using hs⟩
  | none =>
    simp only [h]
    exact ⟨⟨g.nextId, false⟩, by simp, rfl⟩

lemma resetGate_idem (name : String) (g : Gates) :
    resetGate name (resetGate name g) = resetGate name g := by
  obtain ⟨ev, hreg, hset⟩ := resetGate_reg_unsignaled name g
  exact resetGate_pending_id name (resetGate name g) ev hreg hset

lemma resetGate_fresh_reg (name : String) (g : Gates) (h : g.reg name = none) :
    (resetGate name g).reg name = some ⟨g.nextId, false⟩ := by
  unfold resetGate getGate
  simp [h]

/-- C6: gates are idempotent one-shot latches.  Any positive number of
`open_gate(name)` calls leaves the registry exactly as one call does; after
an `open_gate` a `_wait_gate` passes through immediately; `reset_gate`
after `open_gate` installs a fresh unsignaled latch so the next wait
blocks again, and the next `open_gate` signals it again. -/
theorem C6_gate_idempotent_latch (name : String) (g : Gates) :
    (∀ n, 1 ≤ n → (openGate name)^[n] g = openGate name g) ∧
    waitPasses name (openGate name g) = true ∧
    waitPasses name (resetGate name (openGate name g)) = false ∧
    waitPasses name (openGate name (resetGate name (openGate name g))) = true :=
  ⟨openGate_iterate name g, waitPasses_openGate name g,
   waitPasses_reset_open name g,
   waitPasses_openGate name (resetGate name (openGate name g))⟩

/-- Witness for C6 at a concrete gate name and the initial registry. -/
theorem C6_gate_idempotent_latch_witness :
    (openGate "CONFIRM_AFTER_LOGIN")^[3] initialGates
        = openGate "CONFIRM_AFTER_LOGIN" initialGates ∧
    waitPasses "CONFIRM_AFTER_LOGIN" (openGate "CONFIRM_AFTER_LOGIN" initialGates) = true ∧
    waitPasses "CONFIRM_AFTER_LOGIN"
        (resetGate "CONFIRM_AFTER_LOGIN" (openGate "CONFIRM_AFTER_LOGIN" initialGates)) = false :=
  ⟨(C6_gate_idempotent_latch "CONFIRM_AFTER_LOGIN" initialGates).1 3 (by decide),
   (C6_gate_idempotent_latch "CONFIRM_AFTER_LOGIN" initialGates).2.1,
   (C6_gate_idempotent_latch "CONFIRM_AFTER_LOGIN" initialGates).2.2.1⟩

/-- C10: `reset_gate` on a gate that is not signaled leaves the existing
latch object in place (it replaces the latch only when set), so reset on a
pending gate is the identity on the registry, reset is idempotent, a later
`open_gate` signals the very latch (same identity) a blocked waiter holds,
and reset on a never-referenced name merely registers the fresh unsignaled
latch that `_get_gate` created. -/
theorem C10_reset_pending_is_identity (name : String) (g : Gates) :
    (∀ ev, g.reg name = some ev → ev.isSet = false →
      resetGate name g = g ∧
      (openGate name (resetGate name g)).reg name = some ⟨ev.eid, true⟩) ∧
    resetGate name (resetGate name g) = resetGate name g ∧
    (g.reg name = none → (resetGate name g).reg name = some ⟨g.nextId, false⟩) := by
  refine ⟨?_, resetGate_idem name g, resetGate_fresh_reg name g⟩
  intro ev hreg hset
  have hid := resetGate_pending_id name g ev hreg hset
  refine ⟨hid, ?_⟩
  rw [hid, openGate_reg_self, getGate_of_reg_some name g ev hreg]

/-- Witness for C10 at a concrete registry holding one pending gate. -/
theorem C10_reset_pending_is_identity_witness :
    pendingGates.reg "CONFIRM_PRODUCT_AND_CHAT" = some ⟨5, false⟩ ∧
    resetGate "CONFIRM_PRODUCT_AND_CHAT" pendingGates = pendingGates ∧
    (openGate "CONFIRM_PRODUCT_AND_CHAT"
        (resetGate "CONFIRM_PRODUCT_AND_CHAT" pendingGates)).reg
      "CONFIRM_PRODUCT_AND_CHAT" = some ⟨5, true⟩ :=
  ⟨by decide,
   ((C10_reset_pending_is_identity "CONFIRM_PRODUCT_AND_CHAT" pendingGates).1
      ⟨5, false⟩ (by decide) (by decide)).1,
   ((C10_reset_pending_is_identity "CONFIRM_PRODUCT_AND_CHAT" pendingGates).1
      ⟨5, false⟩ (by decide) (by decide)).2⟩

/-- C3 counterexample: the claim says a failed no-proxy recovery yields
type proxy_tunnel_failed.  Against a driver whose recovery navigation
fails with a non-tunnel error, `ensure_login_via_taobao` returns the
recovery's own type navigation_failed instead, after exactly one
fallback call. -/
theorem C3_counterexample :
    isProxyTunnelError "net::ERR_TUNNEL_CONNECTION_FAILED" = true ∧
    (ensureLoginViaTaobao c3FailingLoginEnv "https://detail.1688.com/offer/123.html").2 = 1 ∧
    (ensureLoginViaTaobao c3FailingLoginEnv "https://detail.1688.com/offer/123.html").1.ok
      = false ∧
    (ensureLoginViaTaobao c3FailingLoginEnv "https://detail.1688.com/offer/123.html").1.type
      = "navigation_failed" ∧
    (ensureLoginViaTaobao c3FailingLoginEnv "https://detail.1688.com/offer/123.html").1.type
      ≠ "proxy_tunnel_failed" := by
  decide

/-- C3 amended: after a settled login, a product-navigation
`PlaywrightError` classified as a proxy-tunnel error triggers exactly one
no-proxy recovery; a successful recovery substitutes `ok=true`
(`proxy_tunnel_fallback_success`), while a failed recovery yields
`ok=false` carrying the recovery's own failure type and reason
(`proxy_tunnel_failed` only when the retry also hits a tunnel error,
otherwise `navigation_failed` or `fallback_failed`).  A non-tunnel
`PlaywrightError` makes no fallback call and is converted by the outer
handler into an `ok=false` result of type `playwright_error` rather than
propagating. -/
theorem C3_proxy_fallback_exactly_once (env : LoginEnv) (productUrl : String)
    (e : NavErr)
    (hentry : env.gotoLoginEntry = Except.ok ())
    (hlogged : env.checkLoggedIn = Except.ok true)
    (hnav : env.gotoProduct = Except.error e)
    (hpw : e.isPlaywright = true) :
    (isProxyTunnelError e.msg = true →
      (ensureLoginViaTaobao env productUrl).2 = 1 ∧
      ((reopenPageWithoutProxyAndReuseCookies env.fallback productUrl).ok = true →
        (ensureLoginViaTaobao env productUrl).1 =
          ⟨true, "login_ok_product_via_fallback", "proxy_tunnel_fallback_success"⟩) ∧
      ((reopenPageWithoutProxyAndReuseCookies env.fallback productUrl).ok = false →
        (ensureLoginViaTaobao env productUrl).1 =
          ⟨false, (reopenPageWithoutProxyAndReuseCookies env.fallback productUrl).reason,
           (reopenPageWithoutProxyAndReuseCookies env.fallback productUrl).type⟩)) ∧
    (isProxyTunnelError e.msg = false →
      (ensureLoginViaTaobao env productUrl).2 = 0 ∧
      (ensureLoginViaTaobao env productUrl).1 =
        ⟨false, "Login process failed with Playwright error: " ++ e.msg,
         "playwright_error"⟩) := by
  unfold ensureLoginViaTaobao
  rw [hentry, hlogged, hnav]
  constructor
  · intro ht
    simp only [hpw, ht, if_true]
    refine ⟨by split <;> rfl, ?_, ?_⟩ <;> intro hfb <;> simp [hfb]
  · intro ht
    simp [hpw, ht, loginOuterCatch]

/-- Witness for C3 at a driver that fails the product navigation with a
tunnel error once and then succeeds without the proxy. -/
theorem C3_proxy_fallback_exactly_once_witness :
    (ensureLoginViaTaobao c3RecoveredLoginEnv "https://detail.1688.com/offer/123.html").2
      = 1 ∧
    (ensureLoginViaTaobao c3RecoveredLoginEnv "https://detail.1688.com/offer/123.html").1
      = ⟨true, "login_ok_product_via_fallback", "proxy_tunnel_fallback_success"⟩ :=
  ⟨((C3_proxy_fallback_exactly_once c3RecoveredLoginEnv
      "https://detail.1688.com/offer/123.html"
      ⟨true, "net::ERR_TUNNEL_CONNECTION_FAILED"⟩ rfl rfl rfl rfl).1 (by decide)).1,
   (((C3_proxy_fallback_exactly_once c3RecoveredLoginEnv
      "https://detail.1688.com/offer/123.html"
      ⟨true, "net::ERR_TUNNEL_CONNECTION_FAILED"⟩ rfl rfl rfl rfl).1 (by decide)).2.1
      (by decide))⟩

lemma sendAttemptLoop_true (env : SendEnv) (msgSent : Bool) (l : List String) :
    sendAttemptLoop env msgSent l = true := by
  induction l generalizing msgSent with
  | nil => rfl
  | cons sel rest ih =>
    unfold sendAttemptLoop
    rcases (env.input sel).visible with e | b
    · exact ih msgSent
    · rcases b with _ | _
      · exact ih msgSent
      · rcases (env.input sel).act with e | u
        · exact ih msgSent
        · simp only
          repeat' split
          all_goals first | rfl | exact ih _

@[simp] lemma setStep_step (tag : String) (s : SessionState) :
    (setStep tag s).step = some tag := rfl

@[simp] lemma setStep_sessionId (tag : String) (s : SessionState) :
    (setStep tag s).sessionId = s.sessionId := rfl

@[simp] lemma setStep_status (tag : String) (s : SessionState) :
    (setStep tag s).status = s.status := rfl

@[simp] lemma setStep_lastError (tag : String) (s : SessionState) :
    (setStep tag s).lastError = s.lastError := rfl

@[simp] lemma setStep_supplierReply (tag : String) (s : SessionState) :
    (setStep tag s).supplierReply = s.supplierReply := rfl

@[simp] lemma setSupplierReply_sessionId (reply : String) (s : SessionState) :
    (setSupplierReply reply s).sessionId = s.sessionId := rfl

@[simp] lemma setSupplierReply_status (reply : String) (s : SessionState) :
    (setSupplierReply reply s).status = s.status := rfl

@[simp] lemma setSupplierReply_supplierReply (reply : String) (s : SessionState) :
    (setSupplierReply reply s).supplierReply = some reply := rfl

@[simp] lemma finishDone_sessionId (finishedAt : String) (s : SessionState) :
    (finishDone finishedAt s).sessionId = s.sessionId := rfl

@[simp] lemma finishDone_status (finishedAt : String) (s : SessionState) :
    (finishDone finishedAt s).status = "done" := rfl

@[simp] lemma finishDone_step (finishedAt : String) (s : SessionState) :
    (finishDone finishedAt s).step = some "DONE" := rfl

@[simp] lemma finishDone_supplierReply (finishedAt : String) (s : SessionState) :
    (finishDone finishedAt s).supplierReply = s.supplierReply := rfl

@[simp] lemma markError_sessionId (e : Exc) (finishedAt : String)
    (s : SessionState) : (markError e finishedAt s).sessionId = s.sessionId := rfl

@[simp] lemma markError_status (e : Exc) (finishedAt : String)
    (s : SessionState) : (markError e finishedAt s).status = "error" := rfl

@[simp] lemma markError_step (e : Exc) (finishedAt : String)
    (s : SessionState) : (markError e finishedAt s).step = s.step := rfl

@[simp] lemma markError_lastError (e : Exc) (finishedAt : String)
    (s : SessionState) :
    (markError e finishedAt s).lastError = some (excStr e) := rfl

@[simp] lemma markError_finishedAt (e : Exc) (finishedAt : String)
    (s : SessionState) :
    (markError e finishedAt s).finishedAt = some finishedAt := rfl

lemma replyStage_ok_fields (s : SessionState) (gen : Except Exc (Option AIResult))
    (send : String → Except Exc Unit) (s' : SessionState)
    (h : (replyStage s gen send).2 = .ok s') :
    s'.sessionId = s.sessionId ∧ s'.status = s.status ∧ s'.step = s.step ∧
    s'.supplierReply = s.supplierReply := by
  unfold replyStage at h
  repeat' split at h
  all_goals simp_all
  all_goals subst h
  all_goals simp

lemma startBody_sessionId (env : StartEnv) (productUrl : String)
    (s : SessionState) :
    (startBody env productUrl s).1.sessionId = s.sessionId := by
  unfold startBody
  repeat' split
  all_goals try simp
  all_goals rename_i s6 h
  all_goals simp [(replyStage_ok_fields _ _ _ _ h).1]

lemma startBody_status_cases (env : StartEnv) (productUrl : String)
    (s : SessionState) :
    (startBody env productUrl s).1.status = s.status ∨
    ((startBody env productUrl s).1.status = "done" ∧
     (startBody env productUrl s).2 = Outcome.finished ∧
     (startBody env productUrl s).1.supplierReply
       = some (waitForSupplierReplyCanonical env.supplierSleep 180)) := by
  unfold startBody
  repeat' split
  all_goals try (left; simp; done)
  all_goals rename_i s6 h
  all_goals
    exact Or.inr ⟨by simp, rfl, by simp [(replyStage_ok_fields _ _ _ _ h).2.2.2]⟩

lemma startBody_captcha_step (env : StartEnv) (productUrl : String)
    (s : SessionState) (hc : env.chat.captcha = true) :
    (startBody env productUrl s).1.step = some "LAUNCH_BROWSER" ∨
    (startBody env productUrl s).1.step = some "S0_DONE" := by
  have hchat : (ensureProductAndChatOpen env.chat).ok = false := by
    unfold ensureProductAndChatOpen
    rw [hc]
    simp
  unfold startBody
  simp only [hchat]
  repeat' split
  all_goals simp_all

@[simp] lemma initStart_sessionId (a b c d e : String) (mt : Int)
    (s : SessionState) : (initStart a b c d e mt s).sessionId = some a := rfl

@[simp] lemma initStart_status (a b c d e : String) (mt : Int)
    (s : SessionState) : (initStart a b c d e mt s).status = "running" := rfl

@[simp] lemma initStart_lastError (a b c d e : String) (mt : Int)
    (s : SessionState) : (initStart a b c d e mt s).lastError = none := rfl

@[simp] lemma initStart_step (a b c d e : String) (mt : Int)
    (s : SessionState) : (initStart a b c d e mt s).step = some "INIT" := rfl

lemma ensureProductAndChatOpen_of_captcha (env : ChatEnv)
    (hc : env.captcha = true) :
    (ensureProductAndChatOpen env).ok = false ∧
    (ensureProductAndChatOpen env).type = "blocked_by_captcha" := by
  unfold ensureProductAndChatOpen
  rw [hc]
  simp

lemma runStart_sessionId (env : StartEnv) (productUrl openerText : String)
    (maxTurns : Int) (style : String) (s : SessionState)
    (h : s.status ≠ "running") :
    (runStart env productUrl openerText maxTurns style s).1.sessionId
      = some env.sessionId := by
  unfold runStart
  rw [if_neg h]
  rcases hb : startBody env productUrl
      (initStart env.sessionId env.startedAt productUrl openerText style
        maxTurns s) with ⟨s2, o⟩
  have hsid := startBody_sessionId env productUrl
    (initStart env.sessionId env.startedAt productUrl openerText style
      maxTurns s)
  rw [hb] at hsid
  simp only at hsid
  cases o <;> simp [hsid]

lemma runStart_captcha_step_inv (env : StartEnv)
    (productUrl openerText : String) (maxTurns : Int) (style : String)
    (s : SessionState) (hc : env.chat.captcha = true)
    (hs : s.step ≠ some "S1_DONE") :
    (runStart env productUrl openerText maxTurns style s).1.step
      ≠ some "S1_DONE" := by
  unfold runStart
  split
  · simpa using hs
  · rcases hb : startBody env productUrl
        (initStart env.sessionId env.startedAt productUrl openerText style
          maxTurns s) with ⟨s2, o⟩
    have hstep := startBody_captcha_step env productUrl
      (initStart env.sessionId env.startedAt productUrl openerText style
        maxTurns s) hc
    rw [hb] at hstep
    simp only at hstep
    cases o <;> rcases hstep with h2 | h2 <;> simp [h2]

/-- C1: at most one session runs process-wide.  While a session has
status running, any further `start()` or `start_login_only()` raises the
already-running `RuntimeError` from inside the lock, before touching any
field, so the call returns the active session record unchanged. -/
theorem C1_second_start_rejected_unchanged (env : StartEnv)
    (env2 : LoginOnlyEnv) (productUrl openerText : String) (maxTurns : Int)
    (style : String) (s : SessionState) (h : s.status = "running") :
    runStart env productUrl openerText maxTurns style s
      = (s, Outcome.raised ⟨"RuntimeError", "A session is already running"⟩) ∧
    startLoginOnly env2 s
      = (s, Outcome.raised ⟨"RuntimeError", "A session is already running"⟩) := by
  constructor
  · unfold runStart
    rw [if_pos h]
  · unfold startLoginOnly
    rw [if_pos h]

/-- Witness for C1: a concrete running session and concrete
environments. -/
theorem C1_second_start_rejected_unchanged_witness :
    runningSessionState.status = "running" ∧
    runStart demoStartEnv "https://detail.1688.com/offer/123.html" "你好" 6
        "Aggressive" runningSessionState
      = (runningSessionState,
         Outcome.raised ⟨"RuntimeError", "A session is already running"⟩) ∧
    startLoginOnly demoLoginOnlyEnv runningSessionState
      = (runningSessionState,
         Outcome.raised ⟨"RuntimeError", "A session is already running"⟩) :=
  ⟨rfl,
   (C1_second_start_rejected_unchanged demoStartEnv demoLoginOnlyEnv
     "https://detail.1688.com/offer/123.html" "你好" 6 "Aggressive"
     runningSessionState rfl).1,
   (C1_second_start_rejected_unchanged demoStartEnv demoLoginOnlyEnv
     "https://detail.1688.com/offer/123.html" "你好" 6 "Aggressive"
     runningSessionState rfl).2⟩

/-- C2: CAPTCHA is a hard stop.  Against a driver whose chat-open step
always reports `blocked_by_captcha`, no number of repeated `start()`
attempts ever reaches step `S1_DONE`; and an attempt that reaches the
captcha branch returns early with the session still `running`, still at
step `S0_DONE`, with no error recorded. -/
theorem C2_captcha_hard_stop (env : StartEnv) (productUrl openerText : String)
    (maxTurns : Int) (style : String) (hc : env.chat.captcha = true) :
    (∀ s n, s.step ≠ some "S1_DONE" →
      (((startAttempt env productUrl openerText maxTurns style)^[n]) s).step
        ≠ some "S1_DONE") ∧
    (∀ s, s.status ≠ "running" →
      env.getPage = Except.ok () →
      pageCheckRes env = Except.ok () →
      (ensureLoginViaTaobao env.login productUrl).1.ok = true →
      env.gateLoginWait = Except.ok () →
      offerReadyRes env = Except.ok () →
      (runStart env productUrl openerText maxTurns style s).1.status
          = "running" ∧
      (runStart env productUrl openerText maxTurns style s).1.step
          = some "S0_DONE" ∧
      (runStart env productUrl openerText maxTurns style s).1.lastError
          = none ∧
      (runStart env productUrl openerText maxTurns style s).2
          = Outcome.halted) := by
  constructor
  · intro s n
    induction n generalizing s with
    | zero => intro hs; simpa using hs
    | succ k ih =>
      intro hs
      rw [Function.iterate_succ_apply]
      exact ih _ (runStart_captcha_step_inv env productUrl openerText maxTurns
        style s hc hs)
  · intro s hstat hget hcheck hlogin hgate hoffer
    obtain ⟨hok, htype⟩ := ensureProductAndChatOpen_of_captcha env.chat hc
    unfold runStart startBody
    rw [if_neg hstat, hget, hcheck, hlogin, hgate, hoffer, htype]
    simp [hok]

/-- Witness for C2: five repeated attempts against the captcha-blocked
driver, plus the single-attempt branch behaviour. -/
theorem C2_captcha_hard_stop_witness :
    c2CaptchaEnv.chat.captcha = true ∧
    (((startAttempt c2CaptchaEnv "https://detail.1688.com/offer/123.html"
        "你好" 6 "Aggressive")^[5]) initialSessionState).step
      ≠ some "S1_DONE" ∧
    (runStart c2CaptchaEnv "https://detail.1688.com/offer/123.html" "你好" 6
        "Aggressive" initialSessionState).1.status = "running" ∧
    (runStart c2CaptchaEnv "https://detail.1688.com/offer/123.html" "你好" 6
        "Aggressive" initialSessionState).1.step = some "S0_DONE" ∧
    (runStart c2CaptchaEnv "https://detail.1688.com/offer/123.html" "你好" 6
        "Aggressive" initialSessionState).2 = Outcome.halted :=
  ⟨rfl,
   (C2_captcha_hard_stop c2CaptchaEnv "https://detail.1688.com/offer/123.html"
     "你好" 6 "Aggressive" rfl).1 initialSessionState 5 (by decide),
   ((C2_captcha_hard_stop c2CaptchaEnv "https://detail.1688.com/offer/123.html"
     "你好" 6 "Aggressive" rfl).2 initialSessionState (by decide) rfl rfl
     (by decide) rfl rfl).1,
   ((C2_captcha_hard_stop c2CaptchaEnv "https://detail.1688.com/offer/123.html"
     "你好" 6 "Aggressive" rfl).2 initialSessionState (by decide) rfl rfl
     (by decide) rfl rfl).2.1,
   ((C2_captcha_hard_stop c2CaptchaEnv "https://detail.1688.com/offer/123.html"
     "你好" 6 "Aggressive" rfl).2 initialSessionState (by decide) rfl rfl
     (by decide) rfl rfl).2.2.2⟩

/-- C5: an uncaught exception escaping the workflow body of `start()`
marks the session errored with `last_error` in the exception-class plus
message format, stamps `finished_at`, and releases the running slot, so
a subsequent `start()` proceeds to create a new session. -/
theorem C5_uncaught_exception_errors_session (env : StartEnv)
    (productUrl openerText : String) (maxTurns : Int) (style : String)
    (s : SessionState) (e : Exc) (hrun : s.status ≠ "running")
    (h : (runStart env productUrl openerText maxTurns style s).2
      = Outcome.raised e) :
    (runStart env productUrl openerText maxTurns style s).1.status
        = "error" ∧
    (runStart env productUrl openerText maxTurns style s).1.lastError
        = some (e.kind ++ ": " ++ e.msg) ∧
    (runStart env productUrl openerText maxTurns style s).1.finishedAt
        = some env.finishedAt ∧
    (runStart env productUrl openerText maxTurns style s).1.status
        ≠ "running" ∧
    (∀ (env2 : StartEnv) (pu2 ot2 : String) (mt2 : Int) (st2 : String),
      (runStart env2 pu2 ot2 mt2 st2
        (runStart env productUrl openerText maxTurns style s).1).1.sessionId
        = some env2.sessionId) := by
  have hkey : (runStart env productUrl openerText maxTurns style s).1
      = markError e env.finishedAt
          (startBody env productUrl
            (initStart env.sessionId env.startedAt productUrl openerText style
              maxTurns s)).1 := by
    unfold runStart at h ⊢
    rw [if_neg hrun] at h ⊢
    rcases hb : startBody env productUrl
        (initStart env.sessionId env.startedAt productUrl openerText style
          maxTurns s) with ⟨s2, o⟩
    cases o <;> simp_all
  rw [hkey]
  refine ⟨by simp, by simp [excStr], by simp, by simp, ?_⟩
  intro env2 pu2 ot2 mt2 st2
  exact runStart_sessionId env2 pu2 ot2 mt2 st2 _ (by simp)

/-- Witness for C5: a concrete run whose page acquisition raises. -/
theorem C5_uncaught_exception_errors_session_witness :
    initialSessionState.status ≠ "running" ∧
    (runStart c5FailEnv "https://detail.1688.com/offer/123.html" "你好" 6
        "Aggressive" initialSessionState).2
      = Outcome.raised ⟨"TargetClosedError", "Browser closed"⟩ ∧
    (runStart c5FailEnv "https://detail.1688.com/offer/123.html" "你好" 6
        "Aggressive" initialSessionState).1.status = "error" ∧
    (runStart c5FailEnv "https://detail.1688.com/offer/123.html" "你好" 6
        "Aggressive" initialSessionState).1.lastError
      = some ("TargetClosedError" ++ ": " ++ "Browser closed") ∧
    (runStart demoStartEnv "https://detail.1688.com/offer/456.html" "你们好" 6
        "Friendly"
        (runStart c5FailEnv "https://detail.1688.com/offer/123.html" "你好" 6
          "Aggressive" initialSessionState).1).1.sessionId
      = some demoStartEnv.sessionId :=
  ⟨by decide, by decide,
   (C5_uncaught_exception_errors_session c5FailEnv
     "https://detail.1688.com/offer/123.html" "你好" 6 "Aggressive"
     initialSessionState ⟨"TargetClosedError", "Browser closed"⟩ (by decide)
     (by decide)).1,
   (C5_uncaught_exception_errors_session c5FailEnv
     "https://detail.1688.com/offer/123.html" "你好" 6 "Aggressive"
     initialSessionState ⟨"TargetClosedError", "Browser closed"⟩ (by decide)
     (by decide)).2.1,
   (C5_uncaught_exception_errors_session c5FailEnv
     "https://detail.1688.com/offer/123.html" "你好" 6 "Aggressive"
     initialSessionState ⟨"TargetClosedError", "Browser closed"⟩ (by decide)
     (by decide)).2.2.2.2 demoStartEnv "https://detail.1688.com/offer/456.html"
     "你们好" 6 "Friendly"⟩

lemma waitForSupplierReply_cases (r : Except String Unit) (t : Nat) :
    waitForSupplierReplyCanonical r t = supplierMockReply ∨
    waitForSupplierReplyCanonical r t = supplierTimeoutReply := by
  unfold waitForSupplierReplyCanonical
  cases r
  · exact Or.inr rfl
  · exact Or.inl rfl

/-- C9: `wait_for_supplier_reply_canonical` never observes the page: it
sleeps at most 10 seconds and returns the fixed acknowledgement text (or
the fixed timeout text if the sleep raises) for every sleep outcome and
timeout; consequently the `supplier_reply` persisted by any completed
(`done`) run is one of these two constants, never text typed by the
counterpart. -/
theorem C9_supplier_reply_is_constant :
    (∀ (r : Except String Unit) (t : Nat),
      waitForSupplierReplyCanonical r t = supplierMockReply ∨
      waitForSupplierReplyCanonical r t = supplierTimeoutReply) ∧
    (∀ t, supplierSleepSeconds t ≤ 10) ∧
    (∀ (env : StartEnv) (productUrl openerText : String) (maxTurns : Int)
       (style : String) (s : SessionState),
      (runStart env productUrl openerText maxTurns style s).1.status = "done" →
      (runStart env productUrl openerText maxTurns style s).1.supplierReply
          = some supplierMockReply ∨
      (runStart env productUrl openerText maxTurns style s).1.supplierReply
          = some supplierTimeoutReply) := by
  refine ⟨waitForSupplierReply_cases, fun t => Nat.min_le_right t 10, ?_⟩
  intro env productUrl openerText maxTurns style s hdone
  by_cases hrun : s.status = "running"
  · unfold runStart at hdone
    rw [if_pos hrun] at hdone
    simp only at hdone
    rw [hrun] at hdone
    exact absurd hdone (by decide)
  · have hcase := startBody_status_cases env productUrl
      (initStart env.sessionId env.startedAt productUrl openerText style
        maxTurns s)
    unfold runStart at hdone ⊢
    rw [if_neg hrun] at hdone ⊢
    rcases hb : startBody env productUrl
        (initStart env.sessionId env.startedAt productUrl openerText style
          maxTurns s) with ⟨s2, o⟩
    rw [hb] at hcase
    simp only at hcase
    cases o with
    | finished =>
      rw [hb] at hdone
      rcases hcase with hcase | hcase
      · rw [initStart_status] at hcase
        simp [hcase] at hdone
      · rcases waitForSupplierReply_cases env.supplierSleep 180 with h2 | h2
        · left
          simp [hcase.2.2, h2]
        · right
          simp [hcase.2.2, h2]
    | halted =>
      rw [hb] at hdone
      rcases hcase with hcase | hcase
      · rw [initStart_status] at hcase
        simp [hcase] at hdone
      · exact absurd hcase.2.1 (by simp)
    | raised e =>
      rw [hb] at hdone
      simp at hdone

/-- Witness for C9: a completed concrete run persists the fixed
acknowledgement. -/
theorem C9_supplier_reply_is_constant_witness :
    (runStart demoStartEnv "https://detail.1688.com/offer/123.html" "你好" 6
        "Aggressive" initialSessionState).1.status = "done" ∧
    ((runStart demoStartEnv "https://detail.1688.com/offer/123.html" "你好" 6
        "Aggressive" initialSessionState).1.supplierReply
        = some supplierMockReply ∨
     (runStart demoStartEnv "https://detail.1688.com/offer/123.html" "你好" 6
        "Aggressive" initialSessionState).1.supplierReply
        = some supplierTimeoutReply) :=
  ⟨by decide,
   C9_supplier_reply_is_constant.2.2 demoStartEnv
     "https://detail.1688.com/offer/123.html" "你好" 6 "Aggressive"
     initialSessionState (by decide)⟩

/-- C4 counterexample: the claim says every empty-or-raising generator
outcome leaves `ai_reply_used_model` marking the fallback.  When the
generator raises, the reply stage sends the fallback text exactly once
but its handler sets only `ai_reply` and `ai_reply_error`, leaving
`ai_reply_used_model` unset (here: still `none` on a fresh session). -/
theorem C4_counterexample :
    (replyStage initialSessionState
        (Except.error ⟨"RuntimeError", "AI client unavailable"⟩) constOkSend).1
      = [fallbackReplyText] ∧
    (replyStage initialSessionState
        (Except.error ⟨"RuntimeError", "AI client unavailable"⟩) constOkSend).2
      = Except.ok { initialSessionState with
                    aiReply := some fallbackReplyText,
                    aiReplyError := some "AI client unavailable" } ∧
    ({ initialSessionState with
       aiReply := some fallbackReplyText,
       aiReplyError := some "AI client unavailable" } : SessionState).aiReplyUsedModel
      = none := by
  decide

/-- C4 amended: when the driver send succeeds (as the concrete driver
send always does), an empty generator result leads to exactly one send
of the fixed non-empty fallback text with `ai_reply_used_model` set to
"fallback", while a raising generator leads to exactly one send of the
same fallback text with `ai_reply_used_model` left unchanged and
`ai_reply_error` recording the exception message instead. -/
theorem C4_fallback_reply_on_generator_failure (s : SessionState)
    (send : String → Except Exc Unit)
    (hsend : ∀ t, send t = Except.ok ()) :
    (∀ e : Exc, replyStage s (Except.error e) send =
      ([fallbackReplyText],
       Except.ok { s with
                   aiReply := some fallbackReplyText,
                   aiReplyError := some e.msg })) ∧
    (replyStage s (Except.ok none) send =
      ([fallbackReplyText],
       Except.ok { s with
                   aiReply := some fallbackReplyText,
                   aiReplyUsedModel := some "fallback" })) ∧
    (∀ r : AIResult, r.text = "" →
      replyStage s (Except.ok (some r)) send =
        ([fallbackReplyText],
         Except.ok { s with
                     aiReply := some fallbackReplyText,
                     aiReplyUsedModel := some "fallback" })) ∧
    fallbackReplyText ≠ "" := by
  refine ⟨?_, ?_, ?_, by decide⟩
  · intro e
    unfold replyStage
    rw [hsend fallbackReplyText]
  · unfold replyStage
    rw [hsend fallbackReplyText]
  · intro r hr
    unfold replyStage
    rw [hsend fallbackReplyText]
    simp [hr]

/-- Witness for C4 at the fresh session and the always-ok send. -/
theorem C4_fallback_reply_on_generator_failure_witness :
    replyStage initialSessionState (Except.ok none) constOkSend =
      ([fallbackReplyText],
       Except.ok { initialSessionState with
                   aiReply := some fallbackReplyText,
                   aiReplyUsedModel := some "fallback" }) :=
  (C4_fallback_reply_on_generator_failure initialSessionState constOkSend
    (fun _ => rfl)).2.1

/-- C7 counterexample: the claim says a failing final send is not
absorbed by the sending step.  On a page where the typing, every
send-button probe, the Enter press and the post-send sleep all raise,
`send_on_chat_precise_canonical` still returns ok `True`: the failure is
absorbed inside the selector loop and nothing propagates. -/
theorem C7_counterexample :
    (c7FailingSendEnv.input "textarea").act
      = Except.error "TargetClosedError: page closed" ∧
    c7FailingSendEnv.pressEnter
      = Except.error "TargetClosedError: page closed" ∧
    sendOnChatPreciseCanonical c7FailingSendEnv = Except.ok true := by
  decide

/-- C7 amended: the driver send absorbs every failure and returns True
for every page behaviour, so no send failure can surface as a top-level
error from the final reply send; and the reply stage always performs at
least one send call (of the generated or fallback text) before it
completes. -/
theorem C7_final_send_always_ok :
    (∀ env : SendEnv, sendOnChatPreciseCanonical env = Except.ok true) ∧
    (∀ (s : SessionState) (gen : Except Exc (Option AIResult)),
      1 ≤ ((replyStage s gen constOkSend).1).length) := by
  constructor
  · intro env
    unfold sendOnChatPreciseCanonical
    rw [sendAttemptLoop_true]
  · intro s gen
    unfold replyStage
    repeat' split
    all_goals simp

/-- C8: `wait_for_chat_ready` either returns True (chat detected) or
raises the distinct timeout `RuntimeError`; for every detection
behaviour and timeout it never returns False. -/
theorem C8_wait_chat_ready_never_false (detect : Nat → Bool) (timeoutS : Nat) :
    waitForChatReady detect timeoutS = Except.ok true ∨
    waitForChatReady detect timeoutS
      = Except.error (waitForChatReadyTimeoutMsg (min timeoutS 30)) := by
  unfold waitForChatReady
  split
  · exact Or.inl rfl
  · exact Or.inr rfl

end Backend

